import Mathlib

/-!
Verification of the macro-credit-regimes core: a shallow embedding of
`features.build_features`, `regimes.rule_based_regime`, and the analytics
functions `regime_distribution` and `stress_window_scorecard`.

Numeric table cells are modelled as `Option Rat` (`none` is a missing
value, pandas NaN); a table column that may be absent is an
`Option Series`.  Dates are row positions (the tables are daily and the
source operates positionally via `shift`).  Comparisons against missing
values are `false`, as in pandas.
-/

namespace MacroCreditRegimes

/-- A numeric column: position-indexed values, `none` = missing (NaN). -/
abbrev Series := Nat → Option ℚ

/-- Pandas comparison `x < c` where a missing left operand compares false. -/
def optLtQ (a : Option ℚ) (c : ℚ) : Bool :=
  match a with
  | some x => decide (x < c)
  | none => false

/-- Pandas comparison `x ≤ c` where a missing left operand compares false. -/
def optLeQ (a : Option ℚ) (c : ℚ) : Bool :=
  match a with
  | some x => decide (x ≤ c)
  | none => false

/-- Pandas comparison `x > c` where a missing left operand compares false. -/
def optGtQ (a : Option ℚ) (c : ℚ) : Bool :=
  match a with
  | some x => decide (c < x)
  | none => false

/-- Pandas comparison `x ≥ c` where a missing left operand compares false. -/
def optGeQ (a : Option ℚ) (c : ℚ) : Bool :=
  match a with
  | some x => decide (c ≤ x)
  | none => false

/-- Pandas comparison `|x| < c` where a missing operand compares false. -/
def optAbsLtQ (a : Option ℚ) (c : ℚ) : Bool :=
  match a with
  | some x => decide (|x| < c)
  | none => false

/-!
## Embedding of `regimes.rule_based_regime`

The input feature table of `rule_based_regime`.  Each field is a column
that may be absent (`none` = the dataframe has no such column).  The six
columns of the source's `required` list come first; `credit_z_1y` and
`risk_off_score` are the optional columns the function also indexes.
The dead local `rates_falling` of the source (computed at lines 55-58 but
never used in any assignment) is omitted.
-/

structure FeatureTable where
  ust_2y_chg_1m : Option Series
  ust_10y_chg_1m : Option Series
  curve_10y2y : Option Series
  credit_chg_1m : Option Series
  vix_level : Option Series
  vix_chg_1m : Option Series
  credit_z_1y : Option Series
  risk_off_score : Option Series

/-- All six columns of the source's `required` list are present. -/
def requiredPresent (ft : FeatureTable) : Bool :=
  ft.ust_2y_chg_1m.isSome && ft.ust_10y_chg_1m.isSome &&
  ft.curve_10y2y.isSome && ft.credit_chg_1m.isSome &&
  ft.vix_level.isSome && ft.vix_chg_1m.isSome

/-- Signal `rates_rising`: both rate momenta above +10bp. -/
def ratesRising (u2 u10 : Series) (i : Nat) : Bool :=
  optGtQ (u2 i) 0.10 && optGtQ (u10 i) 0.10

/-- Signal `curve_inverted`: curve slope below zero. -/
def curveInverted (cu : Series) (i : Nat) : Bool :=
  optLtQ (cu i) 0

/-- Signal `curve_flat_or_down`: long-end momentum not positive. -/
def curveFlatOrDown (u10 : Series) (i : Nat) : Bool :=
  optLeQ (u10 i) 0

/-- Signal `credit_widening`: credit momentum above +10bp and 1y z-score above 1. -/
def creditWidening (cr cz : Series) (i : Nat) : Bool :=
  optGtQ (cr i) 0.10 && optGtQ (cz i) 1.0

/-- Signal `credit_tightening`: credit momentum below -5bp. -/
def creditTightening (cr : Series) (i : Nat) : Bool :=
  optLtQ (cr i) (-0.05)

/-- Signal `credit_stable_cond`: absolute credit momentum below 5bp. -/
def creditStableCond (cr : Series) (i : Nat) : Bool :=
  optAbsLtQ (cr i) 0.05

/-- Signal `vix_low_cond`: volatility level below 15. -/
def vixLowCond (vl : Series) (i : Nat) : Bool :=
  optLtQ (vl i) 15

/-- Signal `vix_elev`: volatility level at or above 20. -/
def vixElev (vl : Series) (i : Nat) : Bool :=
  optGeQ (vl i) 20

/-- Signal `vix_spiking`: volatility momentum above +5 points. -/
def vixSpiking (vc : Series) (i : Nat) : Bool :=
  optGtQ (vc i) 5

/-- Predicate `crisis` of the source. -/
def crisisPred (cr cz vc sc : Series) (i : Nat) : Bool :=
  creditWidening cr cz i && vixSpiking vc i &&
  (optGeQ (sc i) 2 || optGtQ (cz i) 1.5)

/-- Predicate `pivot` of the source. -/
def pivotPred (u2 u10 vl vc : Series) (i : Nat) : Bool :=
  optLtQ (u2 i) (-0.10) && curveFlatOrDown u10 i && vixElev vl i &&
  !vixSpiking vc i

/-- Predicate `late_cycle` of the source. -/
def lateCyclePred (cu cr vl : Series) (i : Nat) : Bool :=
  curveInverted cu i && creditStableCond cr i && vixLowCond vl i

/-- Predicate `expansion` of the source. -/
def expansionPred (u2 u10 cr vl : Series) (i : Nat) : Bool :=
  ratesRising u2 u10 i && creditTightening cr i && vixLowCond vl i

/-- One vectorized assignment `regime.loc[cond] = lbl`: where `cond` holds the
label is overwritten, elsewhere the previous value is kept. -/
def assignWhere (cond : Nat → Bool) (lbl : String) (r : Nat → Option String)
    (i : Nat) : Option String :=
  if cond i then some lbl else r i

/-- The regime series after the four precedence-ordered assignments
(expansion, then late_cycle, then pivot, then crisis; later overwrites). -/
def regimeAssigned (u2 u10 cu cr vl vc cz sc : Series) : Nat → Option String :=
  assignWhere (crisisPred cr cz vc sc) "Risk-off / crisis"
    (assignWhere (pivotPred u2 u10 vl vc) "Policy pivot"
      (assignWhere (lateCyclePred cu cr vl) "Late-cycle"
        (assignWhere (expansionPred u2 u10 cr vl) "Risk-on / expansion"
          (fun _ => none))))

/-- The regime series after the `risk_off_score >= 3` hard override
(`regime.loc[df["risk_off_score"] >= 3] = "Risk-off / crisis"`). -/
def regimeOverridden (u2 u10 cu cr vl vc cz sc : Series) (i : Nat) : Option String :=
  if optGeQ (sc i) 3 then some "Risk-off / crisis"
  else regimeAssigned u2 u10 cu cr vl vc cz sc i

/-- The crisis exit condition `(credit_z_1y < 0.5) & (vix_level < 20)`. -/
def exitCrisis (cz vl : Series) (i : Nat) : Bool :=
  optLtQ (cz i) 0.5 && optLtQ (vl i) 20

/-- The persistence step, exactly as vectorized in the source:
`regime.loc[crisis_active.shift(1, fill_value=False) & ~exit_crisis] = crisis`,
where `crisis_active` is read from the pre-persistence series. -/
def regimePersisted (u2 u10 cu cr vl vc cz sc : Series) (i : Nat) : Option String :=
  let crisisActive : Nat → Bool := fun j =>
    decide (regimeOverridden u2 u10 cu cr vl vc cz sc j = some "Risk-off / crisis")
  let shifted : Bool := match i with
    | 0 => false
    | Nat.succ j => crisisActive j
  if shifted && !exitCrisis cz vl i then some "Risk-off / crisis"
  else regimeOverridden u2 u10 cu cr vl vc cz sc i

/-- The finalized label series: remaining unassigned days become Transition
(`regime.fillna("Transition")`). -/
def regimeFinal (u2 u10 cu cr vl vc cz sc : Series) (i : Nat) : String :=
  (regimePersisted u2 u10 cu cr vl vc cz sc i).getD "Transition"

/-- Embedding of `rule_based_regime`.  If any of the six required columns is
absent the whole series is Transition (source lines 43-44).  Otherwise the
function unconditionally indexes `df["credit_z_1y"]` (line 66) and
`df["risk_off_score"]` (line 84); an absent optional column therefore raises
KeyError, modelled as `Except.error`. -/
def ruleBasedRegime (ft : FeatureTable) : Except String (Nat → String) :=
  match ft.ust_2y_chg_1m, ft.ust_10y_chg_1m, ft.curve_10y2y,
      ft.credit_chg_1m, ft.vix_level, ft.vix_chg_1m with
  | some u2, some u10, some cu, some cr, some vl, some vc =>
    match ft.credit_z_1y with
    | none => Except.error "KeyError: credit_z_1y"
    | some cz =>
      match ft.risk_off_score with
      | none => Except.error "KeyError: risk_off_score"
      | some sc => Except.ok (regimeFinal u2 u10 cu cr vl vc cz sc)
  | _, _, _, _, _, _ => Except.ok (fun _ => "Transition")

/-- The label at position `i`, or `none` when classification raised. -/
def labelAt (ft : FeatureTable) (i : Nat) : Option String :=
  match ruleBasedRegime ft with
  | Except.ok l => some (l i)
  | Except.error _ => none

/-- A constant column. -/
def constS (q : ℚ) : Series := fun _ => some q

/-- Concrete table for the persistence check: day 0 forces crisis through the
score override, later days trigger no predicate, and the exit condition
(credit z 1 and vix 25) never holds. -/
def persistTbl : FeatureTable :=
  { ust_2y_chg_1m := some (constS 0)
    ust_10y_chg_1m := some (constS 0)
    curve_10y2y := some (constS 0)
    credit_chg_1m := some (constS 0)
    vix_level := some (constS 25)
    vix_chg_1m := some (constS 0)
    credit_z_1y := some (constS 1)
    risk_off_score := some (fun i => some (if i = 0 then 3 else 0)) }

/-- Concrete table with the six required columns and no optional columns. -/
def noOptTbl : FeatureTable :=
  { ust_2y_chg_1m := some (constS 0)
    ust_10y_chg_1m := some (constS 0)
    curve_10y2y := some (constS 0)
    credit_chg_1m := some (constS 0)
    vix_level := some (constS 25)
    vix_chg_1m := some (constS 0)
    credit_z_1y := none
    risk_off_score := none }

/-- Like `persistTbl` but the volatility level is missing on day 2, so the
exit condition cannot be evaluated from data on that day. -/
def missExitTbl : FeatureTable :=
  { ust_2y_chg_1m := some (constS 0)
    ust_10y_chg_1m := some (constS 0)
    curve_10y2y := some (constS 0)
    credit_chg_1m := some (constS 0)
    vix_level := some (fun i => if i = 2 then none else some 25)
    vix_chg_1m := some (constS 0)
    credit_z_1y := some (constS 1)
    risk_off_score := some (fun i => some (if i = 0 then 3 else 0)) }

/-- C1: the spec requires a strict left-to-right pass so that crisis carries
through runs of days, but the source's single vectorized shift only looks at
the pre-persistence flag of the prior day.  On `persistTbl` day 0 is crisis by
override and no exit condition ever holds, so by the claim days 1 and 2 must
both stay crisis; the code keeps day 1 but drops day 2 to Transition. -/
theorem persistence_one_step_only :
    labelAt persistTbl 0 = some "Risk-off / crisis" ∧
    labelAt persistTbl 1 = some "Risk-off / crisis" ∧
    labelAt persistTbl 2 = some "Transition" := by
  refine ⟨?_, ?_, ?_⟩ <;>
    norm_num [labelAt, ruleBasedRegime, persistTbl, regimeFinal, regimePersisted,
      regimeOverridden, regimeAssigned, assignWhere, crisisPred, pivotPred,
      lateCyclePred, expansionPred, creditWidening, creditTightening, creditStableCond,
      ratesRising, curveInverted, curveFlatOrDown, vixLowCond, vixElev, vixSpiking, exitCrisis,
      optLtQ, optLeQ, optGtQ, optGeQ, optAbsLtQ, constS] <;> simp

/-- C3: on a table holding exactly the six required columns the claim says
classification completes with the optional sub-conditions false; the code
instead raises KeyError when building `credit_widening` from the absent
`credit_z_1y`. -/
theorem missing_optional_raises :
    ruleBasedRegime noOptTbl = Except.error "KeyError: credit_z_1y" := rfl

/-- C10: on `missExitTbl` day 1 is crisis (carried by persistence) and day 2
has a missing volatility level, so the exit condition is false on day 2 and
the claim keeps day 2 at crisis; the code returns Transition because its
one-shot persistence never sees the carried label of day 1. -/
theorem missing_exit_data_spell_ends :
    labelAt missExitTbl 1 = some "Risk-off / crisis" ∧
    (match missExitTbl.vix_level with
     | some vl => vl 2
     | none => none) = none ∧
    exitCrisis (constS 1) (fun i => if i = 2 then none else some 25) 2 = false ∧
    labelAt missExitTbl 2 = some "Transition" := by
  refine ⟨?_, rfl, ?_, ?_⟩ <;>
    norm_num [labelAt, ruleBasedRegime, missExitTbl, regimeFinal, regimePersisted,
      regimeOverridden, regimeAssigned, assignWhere, crisisPred, pivotPred,
      lateCyclePred, expansionPred, creditWidening, creditTightening, creditStableCond,
      ratesRising, curveInverted, curveFlatOrDown, vixLowCond, vixElev, vixSpiking, exitCrisis,
      optLtQ, optLeQ, optGtQ, optGeQ, optAbsLtQ, constS] <;> simp

/-- The closed five-label enumeration, in the source's canonical order. -/
def regimeLabels : List String :=
  ["Risk-off / crisis", "Policy pivot", "Late-cycle", "Risk-on / expansion",
   "Transition"]

/-- Every finalized label of the main classification path is drawn from the
closed five-label set. -/
theorem regimeFinal_mem (u2 u10 cu cr vl vc cz sc : Series) (t : Nat) :
    regimeFinal u2 u10 cu cr vl vc cz sc t ∈ regimeLabels := by
  simp only [regimeFinal, regimePersisted, regimeOverridden, regimeAssigned,
    assignWhere]
  split
  · simp [regimeLabels]
  · split
    · simp [regimeLabels]
    · split
      · simp [regimeLabels]
      · split
        · simp [regimeLabels]
        · split
          · simp [regimeLabels]
          · split
            · simp [regimeLabels]
            · simp [regimeLabels]

/-- C9: whenever `rule_based_regime` returns a label series, every entry is
one of the five enumerated regime values; no entry is missing and none is any
other string. -/
theorem closed_label_set (ft : FeatureTable) (l : Nat → String) (t : Nat)
    (h : ruleBasedRegime ft = Except.ok l) : l t ∈ regimeLabels := by
  unfold ruleBasedRegime at h
  split at h
  · rename_i u2 u10 cu cr vl vc _ _ _ _ _ _
    cases hcz : FeatureTable.credit_z_1y ft with
    | none => rw [hcz] at h; cases h
    | some cz =>
      rw [hcz] at h
      cases hsc : FeatureTable.risk_off_score ft with
      | none => rw [hsc] at h; cases h
      | some sc =>
        rw [hsc] at h
        simp only [Except.ok.injEq] at h
        subst h
        exact regimeFinal_mem u2 u10 cu cr vl vc cz sc t
  · simp only [Except.ok.injEq] at h
    subst h
    simp [regimeLabels]

/-- A feature table with no columns at all. -/
def emptyTbl : FeatureTable :=
  { ust_2y_chg_1m := none, ust_10y_chg_1m := none, curve_10y2y := none,
    credit_chg_1m := none, vix_level := none, vix_chg_1m := none,
    credit_z_1y := none, risk_off_score := none }

/-- Witness for C9 at the concrete table `emptyTbl`, day 0. -/
theorem closed_label_set_witness :
    (fun _ : Nat => "Transition") 0 ∈ regimeLabels :=
  closed_label_set emptyTbl (fun _ => "Transition") 0 rfl

/-- The score override step forces crisis wherever the score is at least 3. -/
theorem regimeFinal_of_score (u2 u10 cu cr vl vc cz sc : Series) (t : Nat)
    (v : ℚ) (hv : sc t = some v) (h3 : 3 ≤ v) :
    regimeFinal u2 u10 cu cr vl vc cz sc t = "Risk-off / crisis" := by
  have hov : regimeOverridden u2 u10 cu cr vl vc cz sc t =
      some "Risk-off / crisis" := by
    simp only [regimeOverridden, optGeQ, hv]
    rw [if_pos]
    exact decide_eq_true h3
  simp only [regimeFinal, regimePersisted]
  split
  · rfl
  · rw [hov]; rfl

/-- C7: on a feature table carrying the six required columns and the
composite score column, every day whose composite stress score is at least 3
receives the final label Risk-off/crisis in the produced label series,
regardless of which regime predicates hold on that day. -/
theorem score_override_forces_crisis (ft : FeatureTable) (l : Nat → String)
    (sc : Series) (t : Nat) (v : ℚ)
    (hreq : requiredPresent ft = true)
    (hsc : ft.risk_off_score = some sc)
    (hok : ruleBasedRegime ft = Except.ok l)
    (hv : sc t = some v) (h3 : 3 ≤ v) :
    l t = "Risk-off / crisis" := by
  simp only [requiredPresent, Bool.and_eq_true, Option.isSome_iff_exists]
    at hreq
  obtain ⟨⟨⟨⟨⟨⟨u2, h1⟩, u10, h2⟩, cu, h3c⟩, cr, h4⟩, vl, h5⟩, vc, h6⟩ := hreq
  unfold ruleBasedRegime at hok
  rw [h1, h2, h3c, h4, h5, h6, hsc] at hok
  cases hcz : FeatureTable.credit_z_1y ft with
  | none => rw [hcz] at hok; cases hok
  | some cz =>
    rw [hcz] at hok
    simp only [Except.ok.injEq] at hok
    subst hok
    exact regimeFinal_of_score u2 u10 cu cr vl vc cz sc t v hv h3

/-- Concrete table for the C7 witness: required columns present, score 3. -/
def overrideTbl : FeatureTable :=
  { ust_2y_chg_1m := some (constS 0)
    ust_10y_chg_1m := some (constS 0)
    curve_10y2y := some (constS 0)
    credit_chg_1m := some (constS 0)
    vix_level := some (constS 25)
    vix_chg_1m := some (constS 0)
    credit_z_1y := some (constS 1)
    risk_off_score := some (constS 3) }

/-- Witness for C7 at `overrideTbl`, day 0. -/
theorem score_override_forces_crisis_witness :
    labelAt overrideTbl 0 = some "Risk-off / crisis" := by
  obtain ⟨l, hl⟩ : ∃ l, ruleBasedRegime overrideTbl = Except.ok l := ⟨_, rfl⟩
  have hlbl : l 0 = "Risk-off / crisis" :=
    score_override_forces_crisis overrideTbl l (constS 3) 0 3 rfl rfl hl rfl
      (by norm_num)
  simp [labelAt, hl, hlbl]

/-!
## Embedding of `analytics.regime_distribution`

Regime label series are `List (Option String)` (`none` = missing label,
filled to Transition by `_normalize_regime`).  The embedding covers label
series drawn from the closed label set, the domain produced by the regime
classifier; the `Share (%)` column is kept exact (the source rounds it to
two decimals for display only).
-/

/-- The list `REGIME_ORDER` of `analytics.py`: the canonical regime order. -/
def REGIME_ORDER : List String :=
  ["Risk-off / crisis", "Policy pivot", "Late-cycle", "Risk-on / expansion",
   "Transition"]

/-- Embedding of `_normalize_regime`: missing labels become Transition. -/
def normalizeRegime (reg : List (Option String)) : List String :=
  reg.map (fun x => x.getD "Transition")

/-- Embedding of `regime_distribution` after `value_counts`, `_ordered_regime_index` and
`sort_index`: one `(label, days, share)` row per label that occurs in the
series, ordered by `REGIME_ORDER` restricted to the labels present
(`cats = [r for r in REGIME_ORDER if r in set(idx)]`). -/
def regimeDistribution (reg : List (Option String)) :
    List (String × Nat × ℚ) :=
  let r := normalizeRegime reg
  let cats := REGIME_ORDER.filter (fun c => r.contains c)
  cats.map (fun c => (c, r.count c, (r.count c : ℚ) * 100 / r.length))

/-- C4 counterexample: on the one-day series [Transition] the claim demands a
Risk-off/crisis row with count 0, but the table has a single row and no
Risk-off/crisis row at all. -/
theorem distribution_omits_absent :
    (regimeDistribution [some "Transition"]).map Prod.fst = ["Transition"] ∧
    "Risk-off / crisis" ∉ (regimeDistribution [some "Transition"]).map Prod.fst
    := by
  constructor
  · rfl
  · decide

/-- C4 as amended: the distribution table enumerates, in canonical (not
alphabetical) order, exactly the labels occurring at least once: an occurring
label contributes one row carrying its day count and share, and a label with
zero days is omitted rather than shown as a zero row. -/
theorem distribution_rows (reg : List (Option String)) :
    ((regimeDistribution reg).map Prod.fst).Sublist REGIME_ORDER ∧
    (∀ c ∈ REGIME_ORDER,
      (0 < (normalizeRegime reg).count c →
        (c, (normalizeRegime reg).count c,
          ((normalizeRegime reg).count c : ℚ) * 100 /
            (normalizeRegime reg).length) ∈ regimeDistribution reg) ∧
      ((normalizeRegime reg).count c = 0 →
        c ∉ (regimeDistribution reg).map Prod.fst)) := by
  constructor
  · have hmap : (regimeDistribution reg).map Prod.fst =
        REGIME_ORDER.filter
          (fun c => (normalizeRegime reg).contains c) := by
      simp only [regimeDistribution, List.map_map]
      exact List.map_id'' (congrFun rfl) _
    rw [hmap]
    exact List.filter_sublist REGIME_ORDER
  · intro c hc
    constructor
    · intro hpos
      have hmem : c ∈ (normalizeRegime reg) := List.count_pos_iff.mp hpos
      have hcat : c ∈ REGIME_ORDER.filter
          (fun x => (normalizeRegime reg).contains x) := by
        rw [List.mem_filter]
        exact ⟨hc, by simpa [List.elem_iff] using hmem⟩
      simpa [regimeDistribution] using
        List.mem_map_of_mem (fun x => (x, (normalizeRegime reg).count x,
          ((normalizeRegime reg).count x : ℚ) * 100 /
            (normalizeRegime reg).length)) hcat
    · intro hzero hmemmap
      have : c ∈ REGIME_ORDER.filter
          (fun x => (normalizeRegime reg).contains x) := by
        simpa [regimeDistribution] using hmemmap
      have hmem : c ∈ normalizeRegime reg := by
        have := (List.mem_filter.mp this).2
        simpa [List.elem_iff] using this
      exact absurd (List.count_pos_iff.mpr hmem) (by omega)

/-- Witness for C4-as-amended on the one-day series [Late-cycle]: the
occurring label has its row and an absent label has none. -/
theorem distribution_rows_witness :
    ("Late-cycle", 1, (1 : ℚ) * 100 / 1) ∈
      regimeDistribution [some "Late-cycle"] ∧
    "Risk-off / crisis" ∉
      (regimeDistribution [some "Late-cycle"]).map Prod.fst := by
  constructor
  · exact ((distribution_rows [some "Late-cycle"]).2 "Late-cycle"
      (by decide)).1 (by decide)
  · exact ((distribution_rows [some "Late-cycle"]).2 "Risk-off / crisis"
      (by decide)).2 (by decide)

/-!
## Embedding of `analytics.stress_window_scorecard`

A regime label series is a list of `(date, label)` pairs; a stress window
is an episode name with a closed date interval.  The source's
change-point grouping `run_id = (is_crisis != is_crisis.shift(1)).cumsum()`
followed by `groupby(run_id)` partitions the flag sequence into maximal
runs of consecutive equal values, modelled by `splitRuns`.
-/

structure StressWindow where
  episode : String
  startDate : Nat
  endDate : Nat

structure ScorecardRow where
  episode : String
  startDate : Nat
  endDate : Nat
  n_obs : Nat
  crisis_share : Option ℚ
  first_crisis_date : Option Nat
  max_crisis_run_days : Option Nat
  max_crisis_run_start : Option Nat
  max_crisis_run_end : Option Nat
  score_shares : List (Option ℚ)

/-- The observations of the label series falling inside the window
(`mask = (reg.index >= start) & (reg.index <= end)`). -/
def windowSub (reg : List (Nat × String)) (w : StressWindow) :
    List (Nat × String) :=
  reg.filter (fun p => decide (w.startDate ≤ p.1) && decide (p.1 ≤ w.endDate))

/-- The boolean crisis flags `is_crisis = sub.eq(target)`, with dates kept. -/
def crisisFlags (sub : List (Nat × String)) (target : String) :
    List (Nat × Bool) :=
  sub.map (fun p => (p.1, decide (p.2 = target)))

/-- Partition into maximal runs of consecutive equal flag values (the
change-point `cumsum` grouping of the source). -/
def splitRuns : List (Nat × Bool) → List (List (Nat × Bool))
  | [] => []
  | x :: xs =>
    match splitRuns xs with
    | [] => [[x]]
    | [] :: rest => [x] :: rest
    | (y :: ys) :: rest =>
      if x.2 = y.2 then (x :: y :: ys) :: rest
      else [x] :: (y :: ys) :: rest

/-- The quantity `days = int(chunk.sum())`: the number of true flags in a chunk. -/
def runDays (c : List (Nat × Bool)) : Nat :=
  c.countP (fun p => p.2)

/-- A chunk whose first flag is true (`chunk.iloc[0]`). -/
def isTrueChunk (c : List (Nat × Bool)) : Bool :=
  match c.head? with
  | some p => p.2
  | none => false

/-- The crisis runs among the chunks. -/
def trueRuns (chunks : List (List (Nat × Bool))) : List (List (Nat × Bool)) :=
  chunks.filter isTrueChunk

/-- The greatest crisis-run length among the chunks (0 when there is none). -/
def maxRunLen (chunks : List (List (Nat × Bool))) : Nat :=
  ((trueRuns chunks).map runDays).foldr max 0

/-- The first crisis run attaining the greatest length: the run the spec's
tie-break selects. -/
def firstMaxRun (chunks : List (List (Nat × Bool))) :
    Option (List (Nat × Bool)) :=
  (trueRuns chunks).find? (fun c => runDays c == maxRunLen chunks)

/-- One iteration of the source's run loop: skip non-crisis chunks, update
the best on a strictly greater run length (`if days > max_run_days`). -/
def bestStep (acc : Nat × Option Nat × Option Nat) (chunk : List (Nat × Bool)) :
    Nat × Option Nat × Option Nat :=
  match chunk.head? with
  | none => acc
  | some p =>
    if p.2 = false then acc
    else if acc.1 < runDays chunk then
      (runDays chunk, chunk.head?.map Prod.fst, chunk.getLast?.map Prod.fst)
    else acc

/-- The source's run loop over all chunks, from `max_run_days = 0`,
`max_run_start = max_run_end = NaT`. -/
def bestRun (chunks : List (List (Nat × Bool))) :
    Nat × Option Nat × Option Nat :=
  chunks.foldl bestStep (0, none, none)

/-- Embedding of one iteration of the episode loop of
`stress_window_scorecard`: the scorecard row of a single window.  The
zero-observation branch is source lines 287-301; `first_crisis_date`
models the `is_crisis.any()` guard plus `idxmax` as the first true flag. -/
def scoreWindow (reg : List (Nat × String)) (target : String)
    (ros : Option (Nat → Option ℚ)) (thresholds : List ℚ)
    (w : StressWindow) : ScorecardRow :=
  let sub := windowSub reg w
  if sub.length = 0 then
    { episode := w.episode, startDate := w.startDate, endDate := w.endDate,
      n_obs := 0, crisis_share := none, first_crisis_date := none,
      max_crisis_run_days := some 0, max_crisis_run_start := none,
      max_crisis_run_end := none,
      score_shares := thresholds.map (fun _ => none) }
  else
    let isC := crisisFlags sub target
    let best := bestRun (splitRuns isC)
    { episode := w.episode, startDate := w.startDate, endDate := w.endDate,
      n_obs := sub.length,
      crisis_share := some ((isC.countP (fun p => p.2) : ℚ) / sub.length),
      first_crisis_date := (isC.find? (fun p => p.2)).map Prod.fst,
      max_crisis_run_days := some best.1,
      max_crisis_run_start := best.2.1,
      max_crisis_run_end := best.2.2,
      score_shares :=
        match ros with
        | none => thresholds.map (fun _ => none)
        | some f => thresholds.map (fun st =>
            some ((sub.countP (fun p => optGeQ (f p.1) st) : ℚ) /
              sub.length)) }

/-- The full scorecard: one row per configured episode window. -/
def stressWindowScorecard (reg : List (Nat × String))
    (windows : List StressWindow) (target : String)
    (ros : Option (Nat → Option ℚ)) (thresholds : List ℚ) :
    List ScorecardRow :=
  windows.map (scoreWindow reg target ros thresholds)

/-- A crisis chunk holds at least one true flag. -/
theorem runDays_pos_of_true (c : List (Nat × Bool))
    (h : isTrueChunk c = true) : 0 < runDays c := by
  cases c with
  | nil => simp [isTrueChunk] at h
  | cons p rest =>
    simp only [isTrueChunk, List.head?_cons] at h
    simp [runDays, List.countP_cons, h]

/-- Any member of a Nat list is bounded by the `foldr max 0` of the list. -/
theorem le_foldr_max (a : Nat) (l : List Nat) (h : a ∈ l) :
    a ≤ l.foldr max 0 := by
  induction l with
  | nil => cases h
  | cons b t ih =>
    rcases List.mem_cons.mp h with rfl | hmem
    · exact le_max_left _ _
    · exact le_trans (ih hmem) (le_max_right _ _)

/-- When the greatest run length is positive it is attained, and `find?`
returns the first chunk attaining it. -/
theorem find_max_of_pos (l : List (List (Nat × Bool))) (M : Nat)
    (hM : (l.map runDays).foldr max 0 = M) (hpos : 0 < M) :
    ∃ c, l.find? (fun c => runDays c == M) = some c ∧ runDays c = M := by
  induction l with
  | nil => simp at hM; omega
  | cons c rest ih =>
    simp only [List.map_cons, List.foldr_cons] at hM
    by_cases hc : runDays c = M
    · exact ⟨c, by simp [List.find?_cons, hc], hc⟩
    · have hrest : (rest.map runDays).foldr max 0 = M := by
        rcases max_choice (runDays c) ((rest.map runDays).foldr max 0) with
          h | h <;> omega
      obtain ⟨c2, hfind, hdays⟩ := ih hrest
      refine ⟨c2, ?_, hdays⟩
      rw [List.find?_cons_of_neg _ (by simp [hc]), hfind]

/-- A non-crisis chunk leaves the loop accumulator unchanged. -/
theorem bestStep_skip (acc : Nat × Option Nat × Option Nat)
    (c : List (Nat × Bool)) (h : isTrueChunk c = false) :
    bestStep acc c = acc := by
  cases c with
  | nil => rfl
  | cons p rest =>
    simp only [isTrueChunk, List.head?_cons] at h
    simp [bestStep, h]

/-- Characterization of the source's run loop from any accumulator: with a
best at least the greatest remaining run length nothing changes; otherwise
the loop returns the first chunk attaining the greatest length. -/
theorem foldl_bestStep (chunks : List (List (Nat × Bool))) :
    ∀ acc : Nat × Option Nat × Option Nat,
    List.foldl bestStep acc chunks =
      if maxRunLen chunks ≤ acc.1 then acc
      else
        Option.elim
          ((trueRuns chunks).find? (fun c => runDays c == maxRunLen chunks))
          acc
          (fun c =>
            (runDays c, c.head?.map Prod.fst, c.getLast?.map Prod.fst)) := by
  induction chunks with
  | nil =>
    intro acc
    simp [maxRunLen, trueRuns]
  | cons ch rest ih =>
    intro acc
    rw [List.foldl_cons]
    by_cases htc : isTrueChunk ch = true
    · have hhead : ∃ p rest2, ch = p :: rest2 ∧ p.2 = true := by
        cases ch with
        | nil => simp [isTrueChunk] at htc
        | cons p rest2 =>
          exact ⟨p, rest2, rfl, by
            simpa [isTrueChunk, List.head?_cons] using htc⟩
      obtain ⟨p, rest2, rfl, hp⟩ := hhead
      have htr : trueRuns ((p :: rest2) :: rest) =
          (p :: rest2) :: trueRuns rest := by
        simp [trueRuns, List.filter_cons, htc]
      have hml : maxRunLen ((p :: rest2) :: rest) =
          max (runDays (p :: rest2)) (maxRunLen rest) := by
        simp [maxRunLen, htr]
      have hstep : bestStep acc (p :: rest2) =
          if acc.1 < runDays (p :: rest2) then
            (runDays (p :: rest2), (p :: rest2).head?.map Prod.fst,
              (p :: rest2).getLast?.map Prod.fst)
          else acc := by
        simp [bestStep, hp]
      have hdpos : 0 < runDays (p :: rest2) := runDays_pos_of_true _ htc
      by_cases hlt : acc.1 < runDays (p :: rest2)
      · rw [hstep, if_pos hlt, ih]
        by_cases hr : maxRunLen rest ≤ runDays (p :: rest2)
        · have hm : maxRunLen ((p :: rest2) :: rest) = runDays (p :: rest2) := by
            rw [hml]; exact max_eq_left hr
          rw [if_pos
              (show maxRunLen rest ≤ runDays (p :: rest2) from hr),
            hm, if_neg (show ¬ runDays (p :: rest2) ≤ acc.1 by omega), htr,
            List.find?_cons_of_pos _ (by simp)]
          rfl
        · push_neg at hr
          have hm : maxRunLen ((p :: rest2) :: rest) = maxRunLen rest := by
            rw [hml]; exact max_eq_right (le_of_lt hr)
          rw [if_neg
              (show ¬ maxRunLen rest ≤ runDays (p :: rest2) by omega),
            hm, if_neg (show ¬ maxRunLen rest ≤ acc.1 by omega), htr,
            List.find?_cons_of_neg _
              (by simp only [beq_iff_eq]; omega)]
          obtain ⟨c2, hfind, _⟩ :=
            find_max_of_pos (trueRuns rest) (maxRunLen rest) rfl (by omega)
          rw [hfind]
          rfl
      · push_neg at hlt
        rw [hstep, if_neg (show ¬ acc.1 < runDays (p :: rest2) by omega), ih]
        by_cases hr : maxRunLen rest ≤ acc.1
        · have hle : maxRunLen ((p :: rest2) :: rest) ≤ acc.1 := by
            rw [hml]; exact max_le hlt hr
          rw [if_pos hr, if_pos hle]
        · push_neg at hr
          have hm : maxRunLen ((p :: rest2) :: rest) = maxRunLen rest := by
            rw [hml]; exact max_eq_right (by omega)
          rw [if_neg (show ¬ maxRunLen rest ≤ acc.1 by omega),
            hm, if_neg (show ¬ maxRunLen rest ≤ acc.1 by omega), htr,
            List.find?_cons_of_neg _
              (by simp only [beq_iff_eq]; omega)]
    · have htcf : isTrueChunk ch = false := by
        cases h : isTrueChunk ch
        · rfl
        · exact absurd h htc
      have htr : trueRuns (ch :: rest) = trueRuns rest := by
        simp [trueRuns, List.filter_cons, htcf]
      have hml : maxRunLen (ch :: rest) = maxRunLen rest := by
        simp [maxRunLen, htr]
      rw [bestStep_skip acc ch htcf, ih, hml, htr]

/-- A one-day label series dated day 10, fully outside `outsideWin`. -/
def tinyReg : List (Nat × String) := [(10, "Transition")]

/-- A window overlapping no observation of `tinyReg`. -/
def outsideWin : StressWindow :=
  { episode := "ep", startDate := 0, endDate := 5 }

/-- C5 counterexample: a window with zero overlapping observations yields a
row whose longest-crisis-run length is the defined value 0 rather than an
undefined/missing value, contradicting the claim that every derived
statistic of such a row is marked missing. -/
theorem zero_obs_run_days_defined :
    (scoreWindow tinyReg "Risk-off / crisis" none [2, 3]
      outsideWin).n_obs = 0 ∧
    (scoreWindow tinyReg "Risk-off / crisis" none [2, 3]
      outsideWin).max_crisis_run_days = some 0 := by
  constructor <;> rfl

/-- C5 as amended: an episode window overlapping zero observations produces
a row (not an exception) with count 0 whose crisis share, first crisis date,
run start/end dates and score-threshold shares are all undefined, while the
longest-crisis-run length is reported as the number 0, not as missing. -/
theorem scorecard_zero_obs (reg : List (Nat × String)) (target : String)
    (ros : Option (Nat → Option ℚ)) (thresholds : List ℚ)
    (w : StressWindow) (ws : List StressWindow) (hw : w ∈ ws)
    (h : windowSub reg w = []) :
    scoreWindow reg target ros thresholds w ∈
      stressWindowScorecard reg ws target ros thresholds ∧
    (scoreWindow reg target ros thresholds w).n_obs = 0 ∧
    (scoreWindow reg target ros thresholds w).crisis_share = none ∧
    (scoreWindow reg target ros thresholds w).first_crisis_date = none ∧
    (scoreWindow reg target ros thresholds w).max_crisis_run_days = some 0 ∧
    (scoreWindow reg target ros thresholds w).max_crisis_run_start = none ∧
    (scoreWindow reg target ros thresholds w).max_crisis_run_end = none ∧
    (scoreWindow reg target ros thresholds w).score_shares =
      thresholds.map (fun _ => none) := by
  refine ⟨List.mem_map_of_mem _ hw, ?_, ?_, ?_, ?_, ?_, ?_, ?_⟩ <;>
    simp [scoreWindow, h]

/-- Witness for C5-as-amended on zero-overlap inputs. -/
theorem scorecard_zero_obs_witness :
    scoreWindow tinyReg "Risk-off / crisis" none [2, 3] outsideWin ∈
      stressWindowScorecard tinyReg [outsideWin] "Risk-off / crisis" none
        [2, 3] ∧
    (scoreWindow tinyReg "Risk-off / crisis" none [2, 3]
      outsideWin).n_obs = 0 ∧
    (scoreWindow tinyReg "Risk-off / crisis" none [2, 3]
      outsideWin).crisis_share = none ∧
    (scoreWindow tinyReg "Risk-off / crisis" none [2, 3]
      outsideWin).first_crisis_date = none ∧
    (scoreWindow tinyReg "Risk-off / crisis" none [2, 3]
      outsideWin).max_crisis_run_days = some 0 ∧
    (scoreWindow tinyReg "Risk-off / crisis" none [2, 3]
      outsideWin).max_crisis_run_start = none ∧
    (scoreWindow tinyReg "Risk-off / crisis" none [2, 3]
      outsideWin).max_crisis_run_end = none ∧
    (scoreWindow tinyReg "Risk-off / crisis" none [2, 3]
      outsideWin).score_shares = ([2, 3] : List ℚ).map (fun _ => none) :=
  scorecard_zero_obs tinyReg "Risk-off / crisis" none [2, 3] outsideWin
    [outsideWin] (List.mem_singleton.mpr rfl) rfl

/-- C8: within each episode window the scorecard reports the maximal run of
consecutive crisis days; the reported length, start date and end date are
those of `firstMaxRun`, the first-occurring crisis run attaining the
greatest length, and no crisis run in the window is longer. -/
theorem scorecard_first_max_run (reg : List (Nat × String)) (target : String)
    (ros : Option (Nat → Option ℚ)) (thresholds : List ℚ)
    (w : StressWindow) (ws : List StressWindow) (hw : w ∈ ws)
    (hne : windowSub reg w ≠ [])
    (c : List (Nat × Bool))
    (hc : firstMaxRun (splitRuns (crisisFlags (windowSub reg w) target)) =
      some c) :
    scoreWindow reg target ros thresholds w ∈
      stressWindowScorecard reg ws target ros thresholds ∧
    (scoreWindow reg target ros thresholds w).max_crisis_run_days =
      some (runDays c) ∧
    (scoreWindow reg target ros thresholds w).max_crisis_run_start =
      c.head?.map Prod.fst ∧
    (scoreWindow reg target ros thresholds w).max_crisis_run_end =
      c.getLast?.map Prod.fst ∧
    ∀ c2 ∈ trueRuns (splitRuns (crisisFlags (windowSub reg w) target)),
      runDays c2 ≤ runDays c := by
  have hfind : (trueRuns (splitRuns (crisisFlags (windowSub reg w)
      target))).find? (fun x => runDays x ==
        maxRunLen (splitRuns (crisisFlags (windowSub reg w) target))) =
      some c := hc
  have hmem : c ∈ trueRuns (splitRuns (crisisFlags (windowSub reg w)
      target)) := List.mem_of_find?_eq_some hfind
  have htrue : isTrueChunk c = true := (List.mem_filter.mp hmem).2
  have hceq : runDays c =
      maxRunLen (splitRuns (crisisFlags (windowSub reg w) target)) := by
    have := List.find?_some hfind
    simpa [beq_iff_eq] using this
  have hpos : 0 < runDays c := runDays_pos_of_true c htrue
  have hbest : bestRun (splitRuns (crisisFlags (windowSub reg w) target)) =
      (runDays c, c.head?.map Prod.fst, c.getLast?.map Prod.fst) := by
    unfold bestRun
    rw [foldl_bestStep]
    rw [if_neg (show ¬ maxRunLen (splitRuns (crisisFlags (windowSub reg w)
      target)) ≤ (0, (none : Option Nat), (none : Option Nat)).1 by
        simp; omega)]
    rw [hfind]
    rfl
  have hlen : ¬ (windowSub reg w).length = 0 := by
    simpa [List.length_eq_zero] using hne
  refine ⟨List.mem_map_of_mem _ hw, ?_, ?_, ?_, ?_⟩
  · simp [scoreWindow, hlen, hbest]
  · simp [scoreWindow, hlen, hbest]
  · simp [scoreWindow, hlen, hbest]
  · intro c2 hc2
    rw [hceq]
    exact le_foldr_max (runDays c2) _ (List.mem_map_of_mem runDays hc2)

/-- A label series with two tied maximal crisis runs (days 0-1 and 3-4). -/
def tieReg : List (Nat × String) :=
  [(0, "Risk-off / crisis"), (1, "Risk-off / crisis"), (2, "Transition"),
   (3, "Risk-off / crisis"), (4, "Risk-off / crisis")]

/-- A window covering all of `tieReg`. -/
def tieWin : StressWindow :=
  { episode := "tie", startDate := 0, endDate := 9 }

/-- Witness for C8: with two tied length-2 crisis runs the scorecard reports
the earlier one (days 0-1). -/
theorem scorecard_first_max_run_witness :
    (scoreWindow tieReg "Risk-off / crisis" none [2, 3]
      tieWin).max_crisis_run_days = some 2 ∧
    (scoreWindow tieReg "Risk-off / crisis" none [2, 3]
      tieWin).max_crisis_run_start = some 0 ∧
    (scoreWindow tieReg "Risk-off / crisis" none [2, 3]
      tieWin).max_crisis_run_end = some 1 := by
  have h := scorecard_first_max_run tieReg "Risk-off / crisis" none [2, 3]
    tieWin [tieWin] (List.mem_singleton.mpr rfl) (by decide)
    [(0, true), (1, true)] (by decide)
  exact ⟨h.2.1, h.2.2.1, h.2.2.2.1⟩

/-!
## Embedding of `features.build_features`

The raw table holds the four columns the provider can supply; each may be
absent.  `build_features` first shifts every column by the lag, then
forward-fills gaps up to the cap, then derives curve, momentum, z-score and
composite-score columns.  The rolling standard deviation is a square root
of a rational sample variance, so z-scored columns carry real values.
-/

structure RawTable where
  ust_10y : Option Series
  ust_2y : Option Series
  baa_10y_spread : Option Series
  vix : Option Series

/-- Embedding of `df.shift(lag_days)`: positional shift, missing leading values. -/
def shiftLag (lag : Nat) (s : Series) : Series :=
  fun i => if i < lag then none else s (i - lag)

/-- Embedding of `df.ffill(limit=fill_days)`: a missing value is replaced by the nearest
earlier present value at distance at most `fill`; beyond the cap it stays
missing. -/
def ffillLimit (fill : Nat) (s : Series) : Series :=
  fun i =>
    (List.range (fill + 1)).findSome?
      (fun d => if d ≤ i then s (i - d) else none)

/-- Steps 1-2 of `build_features`: lag then bounded forward-fill. -/
def lagFill (lag fill : Nat) (s : Series) : Series :=
  ffillLimit fill (shiftLag lag s)

/-- Embedding of `x - x.shift(n)`: trailing difference, missing when either side is. -/
def diffN (n : Nat) (s : Series) : Series :=
  fun i =>
    match s i, (if i < n then none else s (i - n)) with
    | some a, some b => some (a - b)
    | _, _ => none

/-- Pointwise difference of columns (`df["ust_10y"] - df["ust_2y"]`). -/
def subSeries (a b : Series) : Series :=
  fun i =>
    match a i, b i with
    | some x, some y => some (x - y)
    | _, _ => none

/-- The curve column, present only when both yield columns are. -/
def curveOf (a b : Option Series) : Option Series :=
  match a, b with
  | some x, some y => some (subSeries x y)
  | _, _ => none

/-- The present values in the trailing window of length `w` ending at `i`. -/
def windowVals (w : Nat) (s : Series) (i : Nat) : List ℚ :=
  (List.range w).filterMap (fun d => if d ≤ i then s (i - d) else none)

/-- Embedding of `rolling(window, min_periods).mean()`. -/
def rollingMean (w m : Nat) (s : Series) (i : Nat) : Option ℚ :=
  let vs := windowVals w s i
  if vs.length < m ∨ vs.length = 0 then none
  else some (vs.sum / vs.length)

/-- The square of `rolling(window, min_periods).std()`: the sample variance
(ddof = 1) of the window, missing below the observation floor or with fewer
than two present values. -/
def rollingVar (w m : Nat) (s : Series) (i : Nat) : Option ℚ :=
  let vs := windowVals w s i
  if vs.length < m ∨ vs.length < 2 then none
  else
    let mu := vs.sum / vs.length
    some ((vs.map (fun x => (x - mu) ^ 2)).sum / ((vs.length : ℚ) - 1))

/-- Embedding of `zscore_rolling`: `(x - mu) / sd` with `sd = sd.replace(0, nan)`; the
standard deviation is the real square root of the sample variance. -/
noncomputable def zscoreRolling (w m : Nat) (s : Series) (i : Nat) :
    Option ℝ :=
  match s i, rollingMean w m s i, rollingVar w m s i with
  | some x, some mu, some v =>
    if v = 0 then none
    else some (((x - mu : ℚ) : ℝ) / Real.sqrt (v : ℝ))
  | _, _, _ => none

/-- Embedding of `sig.sum(axis=1, min_count=m)`: missing when fewer than `m` entries are
present, else the sum of the present entries. -/
def sumMinCount (xs : List (Option ℚ)) (m : Nat) : Option ℚ :=
  let vs := xs.filterMap id
  if vs.length < m then none else some vs.sum

/-- The composite `risk_off_score` column of `build_features` (source lines
61-76), built from whichever of the three signal columns exist: each signal
is the float cast of a boolean comparison (a comparison against a missing
value is false, hence 0.0, never missing), and the signals are summed with
`min_count = len(signals)`. -/
def riskScoreOf (curve creditChg vixChg : Option Series) : Option Series :=
  let signals : List Series :=
    (match curve with
     | some c => [fun i => some (if optLtQ (c i) 0 then (1 : ℚ) else 0)]
     | none => []) ++
    (match creditChg with
     | some s => [fun i => some (if optGtQ (s i) 0 then (1 : ℚ) else 0)]
     | none => []) ++
    (match vixChg with
     | some s => [fun i => some (if optGtQ (s i) 0 then (1 : ℚ) else 0)]
     | none => [])
  if signals.isEmpty then none
  else some (fun i => sumMinCount (signals.map (fun s => s i)) signals.length)

/-- The column table produced by `build_features`: the lagged/filled raw
columns plus every derived column. -/
structure FeaturesBuilt where
  ust_10y : Option Series
  ust_2y : Option Series
  baa_10y_spread : Option Series
  vix : Option Series
  curve_10y2y : Option Series
  curve_z_1y : Option (Nat → Option ℝ)
  ust_10y_chg_1m : Option Series
  ust_2y_chg_1m : Option Series
  credit_level : Option Series
  credit_chg_1m : Option Series
  credit_z_1y : Option (Nat → Option ℝ)
  vix_level : Option Series
  vix_chg_1m : Option Series
  vix_z_1y : Option (Nat → Option ℝ)
  risk_off_score : Option Series

/-- Embedding of `build_features`.  `min_1y = int(days_1y * 0.8)` is the
truncated four-fifths of the long window.  A column that cannot be derived
is absent, never fabricated. -/
noncomputable def buildFeatures (m : RawTable)
    (lag_days days_1m days_1y fill_days : Nat) : FeaturesBuilt :=
  { ust_10y := Option.map (lagFill lag_days fill_days) m.ust_10y
    ust_2y := Option.map (lagFill lag_days fill_days) m.ust_2y
    baa_10y_spread := Option.map (lagFill lag_days fill_days) m.baa_10y_spread
    vix := Option.map (lagFill lag_days fill_days) m.vix
    curve_10y2y :=
      curveOf (Option.map (lagFill lag_days fill_days) m.ust_10y)
        (Option.map (lagFill lag_days fill_days) m.ust_2y)
    curve_z_1y :=
      Option.map (zscoreRolling days_1y ((4 * days_1y) / 5))
        (curveOf (Option.map (lagFill lag_days fill_days) m.ust_10y)
          (Option.map (lagFill lag_days fill_days) m.ust_2y))
    ust_10y_chg_1m :=
      Option.map (diffN days_1m)
        (Option.map (lagFill lag_days fill_days) m.ust_10y)
    ust_2y_chg_1m :=
      Option.map (diffN days_1m)
        (Option.map (lagFill lag_days fill_days) m.ust_2y)
    credit_level := Option.map (lagFill lag_days fill_days) m.baa_10y_spread
    credit_chg_1m :=
      Option.map (diffN days_1m)
        (Option.map (lagFill lag_days fill_days) m.baa_10y_spread)
    credit_z_1y :=
      Option.map (zscoreRolling days_1y ((4 * days_1y) / 5))
        (Option.map (lagFill lag_days fill_days) m.baa_10y_spread)
    vix_level := Option.map (lagFill lag_days fill_days) m.vix
    vix_chg_1m :=
      Option.map (diffN days_1m)
        (Option.map (lagFill lag_days fill_days) m.vix)
    vix_z_1y :=
      Option.map (zscoreRolling days_1y ((4 * days_1y) / 5))
        (Option.map (lagFill lag_days fill_days) m.vix)
    risk_off_score :=
      riskScoreOf
        (curveOf (Option.map (lagFill lag_days fill_days) m.ust_10y)
          (Option.map (lagFill lag_days fill_days) m.ust_2y))
        (Option.map (diffN days_1m)
          (Option.map (lagFill lag_days fill_days) m.baa_10y_spread))
        (Option.map (diffN days_1m)
          (Option.map (lagFill lag_days fill_days) m.vix)) }

/-- The value of a possibly absent rational column at a position:
`none` = absent column, `some none` = present column, missing value. -/
def optVal (o : Option Series) (j : Nat) : Option (Option ℚ) :=
  Option.map (fun s => s j) o

/-- The value of a possibly absent real column at a position. -/
def optValR (o : Option (Nat → Option ℝ)) (j : Nat) : Option (Option ℝ) :=
  Option.map (fun s => s j) o

/-- One feature row: the value of every output column at one position. -/
noncomputable def featRow (o : FeaturesBuilt) (t : Nat) :
    Option (Option ℚ) × Option (Option ℚ) × Option (Option ℚ) ×
    Option (Option ℚ) × Option (Option ℚ) × Option (Option ℝ) ×
    Option (Option ℚ) × Option (Option ℚ) × Option (Option ℚ) ×
    Option (Option ℚ) × Option (Option ℝ) × Option (Option ℚ) ×
    Option (Option ℚ) × Option (Option ℝ) × Option (Option ℚ) :=
  (optVal o.ust_10y t, optVal o.ust_2y t, optVal o.baa_10y_spread t,
   optVal o.vix t, optVal o.curve_10y2y t, optValR o.curve_z_1y t,
   optVal o.ust_10y_chg_1m t, optVal o.ust_2y_chg_1m t,
   optVal o.credit_level t, optVal o.credit_chg_1m t,
   optValR o.credit_z_1y t, optVal o.vix_level t, optVal o.vix_chg_1m t,
   optValR o.vix_z_1y t, optVal o.risk_off_score t)

/-- The spec's per-day availability: how many of the three signal source
columns both exist and carry a present underlying value at `t`. -/
def availOf (curve creditChg vixChg : Option Series) (t : Nat) : Nat :=
  (match curve with
   | some c => if (c t).isSome then 1 else 0
   | none => 0) +
  (match creditChg with
   | some s => if (s t).isSome then 1 else 0
   | none => 0) +
  (match vixChg with
   | some s => if (s t).isSome then 1 else 0
   | none => 0)

/-- How many of the derived signal conditions fire at `t` (a condition on a
missing value is false). -/
def hitsOf (curve creditChg vixChg : Option Series) (t : Nat) : Nat :=
  (match curve with
   | some c => if optLtQ (c t) 0 then 1 else 0
   | none => 0) +
  (match creditChg with
   | some s => if optGtQ (s t) 0 then 1 else 0
   | none => 0) +
  (match vixChg with
   | some s => if optGtQ (s t) 0 then 1 else 0
   | none => 0)

/-- How many of the three signal source columns exist at all. -/
def colsOf (curve creditChg vixChg : Option Series) : Nat :=
  (if curve.isSome then 1 else 0) + (if creditChg.isSome then 1 else 0) +
  (if vixChg.isSome then 1 else 0)

/-- Whenever the composite score column exists, its value at any position is
the count of derived signal conditions firing there, never missing, and
bounded by the number of derived signal columns. -/
theorem riskScoreOf_spec (curve creditChg vixChg : Option Series)
    (sc : Series) (t : Nat)
    (h : riskScoreOf curve creditChg vixChg = some sc) :
    sc t = some ((hitsOf curve creditChg vixChg t : ℚ)) ∧
    hitsOf curve creditChg vixChg t ≤ colsOf curve creditChg vixChg := by
  rcases curve with _ | c <;> rcases creditChg with _ | s1 <;>
    rcases vixChg with _ | s2 <;>
    simp only [riskScoreOf, List.nil_append, List.append_nil,
      List.cons_append, List.isEmpty_nil, List.isEmpty_cons,
      List.map_cons, List.map_nil, Option.some.injEq, if_true, if_false,
      Bool.false_eq_true, reduceIte] at h
  · exact absurd h (by simp)
  · subst h
    by_cases h2 : optGtQ (s2 t) 0 <;>
      simp [sumMinCount, hitsOf, colsOf, h2]
  · subst h
    by_cases h1 : optGtQ (s1 t) 0 <;>
      simp [sumMinCount, hitsOf, colsOf, h1]
  · subst h
    by_cases h1 : optGtQ (s1 t) 0 <;> by_cases h2 : optGtQ (s2 t) 0 <;>
      simp [sumMinCount, hitsOf, colsOf, h1, h2] <;> norm_num
  · subst h
    by_cases h0 : optLtQ (c t) 0 <;>
      simp [sumMinCount, hitsOf, colsOf, h0]
  · subst h
    by_cases h0 : optLtQ (c t) 0 <;> by_cases h2 : optGtQ (s2 t) 0 <;>
      simp [sumMinCount, hitsOf, colsOf, h0, h2] <;> norm_num
  · subst h
    by_cases h0 : optLtQ (c t) 0 <;> by_cases h1 : optGtQ (s1 t) 0 <;>
      simp [sumMinCount, hitsOf, colsOf, h0, h1] <;> norm_num
  · subst h
    by_cases h0 : optLtQ (c t) 0 <;> by_cases h1 : optGtQ (s1 t) 0 <;>
      by_cases h2 : optGtQ (s2 t) 0 <;>
      simp [sumMinCount, hitsOf, colsOf, h0, h1, h2] <;> norm_num

/-- C2 as amended: for every raw table and parameters, whenever
`build_features` produces the composite score column, the score at `t` is
the count of derived signal conditions that fire at `t` — a signal whose
underlying value is missing counts as available-but-false — an integer in
[0, number of derived signal columns], and never missing. -/
theorem risk_off_score_counts (m : RawTable)
    (lag_days days_1m days_1y fill_days t : Nat) (sc : Series)
    (hsc : (buildFeatures m lag_days days_1m days_1y
      fill_days).risk_off_score = some sc) :
    sc t = some ((hitsOf
      (buildFeatures m lag_days days_1m days_1y fill_days).curve_10y2y
      (buildFeatures m lag_days days_1m days_1y fill_days).credit_chg_1m
      (buildFeatures m lag_days days_1m days_1y fill_days).vix_chg_1m
      t : ℚ)) ∧
    hitsOf
      (buildFeatures m lag_days days_1m days_1y fill_days).curve_10y2y
      (buildFeatures m lag_days days_1m days_1y fill_days).credit_chg_1m
      (buildFeatures m lag_days days_1m days_1y fill_days).vix_chg_1m t ≤
    colsOf
      (buildFeatures m lag_days days_1m days_1y fill_days).curve_10y2y
      (buildFeatures m lag_days days_1m days_1y fill_days).credit_chg_1m
      (buildFeatures m lag_days days_1m days_1y fill_days).vix_chg_1m :=
  riskScoreOf_spec _ _ _ sc t hsc

/-- All four raw columns present, every value missing. -/
def allNanTbl : RawTable :=
  { ust_10y := some (fun _ => none), ust_2y := some (fun _ => none),
    baa_10y_spread := some (fun _ => none), vix := some (fun _ => none) }

/-- Lag and forward-fill of an all-missing column is all missing. -/
theorem lagFill_allNone (lag fill : Nat) :
    lagFill lag fill (fun _ => (none : Option ℚ)) = fun _ => none := by
  funext i
  simp only [lagFill, ffillLimit, shiftLag]
  refine List.findSome?_eq_none_iff.mpr (fun d _ => ?_)
  by_cases h : d ≤ i <;> simp [h, ite_self]

/-- C2 counterexample: on `allNanTbl` every signal's underlying value is
missing at position 0 — zero signals available in the claim's sense — yet
`build_features` emits the defined score 0 there, not a missing value. -/
theorem score_defined_when_unavailable :
    availOf (buildFeatures allNanTbl 1 21 252 5).curve_10y2y
      (buildFeatures allNanTbl 1 21 252 5).credit_chg_1m
      (buildFeatures allNanTbl 1 21 252 5).vix_chg_1m 0 = 0 ∧
    optVal (buildFeatures allNanTbl 1 21 252 5).risk_off_score 0 =
      some (some 0) := by
  constructor <;>
    simp [buildFeatures, allNanTbl, lagFill_allNone, curveOf, subSeries,
      diffN, availOf, riskScoreOf, sumMinCount, optVal, optLtQ, optGtQ]

/-- Witness for C2-as-amended at `allNanTbl`, position 1. -/
theorem risk_off_score_counts_witness :
    optVal (buildFeatures allNanTbl 1 21 252 5).risk_off_score 1 =
      some (some ((hitsOf
        (buildFeatures allNanTbl 1 21 252 5).curve_10y2y
        (buildFeatures allNanTbl 1 21 252 5).credit_chg_1m
        (buildFeatures allNanTbl 1 21 252 5).vix_chg_1m 1 : ℚ))) := by
  obtain ⟨sc, hsc⟩ : ∃ sc,
      (buildFeatures allNanTbl 1 21 252 5).risk_off_score = some sc :=
    ⟨_, rfl⟩
  have h := risk_off_score_counts allNanTbl 1 21 252 5 1 sc hsc
  rw [optVal, hsc, Option.map_some', h.1]

/-!
## No-lookahead for `build_features`

Two raw tables with the same columns that agree on every value at
positions at most `t - lag` yield identical feature rows at `t`: every
output column reads the lag-shifted, forward-filled base columns only at
positions at most `t`, hence raw values only at positions at most
`t - lag`.
-/

theorem findSome?_congr {A B : Type} (f g : A → Option B) (l : List A)
    (h : ∀ x ∈ l, f x = g x) : l.findSome? f = l.findSome? g := by
  induction l with
  | nil => rfl
  | cons a tl ih =>
    simp only [List.findSome?_cons, h a (List.mem_cons_self a tl)]
    cases g a with
    | none => exact ih (fun x hx => h x (List.mem_cons_of_mem a hx))
    | some b => rfl

theorem shiftLag_agree (lag t : Nat) (s1 s2 : Series)
    (h : ∀ j, j + lag ≤ t → s1 j = s2 j) :
    ∀ j ≤ t, shiftLag lag s1 j = shiftLag lag s2 j := by
  intro j hj
  unfold shiftLag
  split
  · rfl
  · exact h (j - lag) (by omega)

theorem ffillLimit_agree (fill t : Nat) (s1 s2 : Series)
    (h : ∀ j ≤ t, s1 j = s2 j) :
    ∀ j ≤ t, ffillLimit fill s1 j = ffillLimit fill s2 j := by
  intro j hj
  unfold ffillLimit
  refine findSome?_congr _ _ _ (fun d _ => ?_)
  split
  · exact h (j - d) (by omega)
  · rfl

theorem lagFill_agree (lag fill t : Nat) (s1 s2 : Series)
    (h : ∀ j, j + lag ≤ t → s1 j = s2 j) :
    ∀ j ≤ t, lagFill lag fill s1 j = lagFill lag fill s2 j :=
  ffillLimit_agree fill t _ _ (shiftLag_agree lag t s1 s2 h)

theorem diffN_agree (n t : Nat) (s1 s2 : Series)
    (h : ∀ j ≤ t, s1 j = s2 j) :
    ∀ j ≤ t, diffN n s1 j = diffN n s2 j := by
  intro j hj
  unfold diffN
  rw [h j hj]
  have h2 : (if j < n then none else s1 (j - n)) =
      (if j < n then none else s2 (j - n)) := by
    split
    · rfl
    · exact h (j - n) (by omega)
  rw [h2]

theorem subSeries_agree (t : Nat) (a1 a2 b1 b2 : Series)
    (ha : ∀ j ≤ t, a1 j = a2 j) (hb : ∀ j ≤ t, b1 j = b2 j) :
    ∀ j ≤ t, subSeries a1 b1 j = subSeries a2 b2 j := by
  intro j hj
  unfold subSeries
  rw [ha j hj, hb j hj]

theorem windowVals_agree (w t : Nat) (s1 s2 : Series)
    (h : ∀ j ≤ t, s1 j = s2 j) :
    ∀ j ≤ t, windowVals w s1 j = windowVals w s2 j := by
  intro j hj
  unfold windowVals
  refine List.filterMap_congr (fun d _ => ?_)
  split
  · exact h (j - d) (by omega)
  · rfl

theorem zscoreRolling_agree (w m t : Nat) (s1 s2 : Series)
    (h : ∀ j ≤ t, s1 j = s2 j) :
    ∀ j ≤ t, zscoreRolling w m s1 j = zscoreRolling w m s2 j := by
  intro j hj
  have hw := windowVals_agree w t s1 s2 h j hj
  unfold zscoreRolling rollingMean rollingVar
  rw [h j hj, hw]

theorem optVal_map_agree (f : Series → Series) (t : Nat)
    (hf : ∀ s1 s2, (∀ j ≤ t, s1 j = s2 j) → ∀ j ≤ t, f s1 j = f s2 j)
    (oa ob : Option Series) (hs : oa.isSome = ob.isSome)
    (he : ∀ j ≤ t, optVal oa j = optVal ob j) :
    ∀ j ≤ t, optVal (oa.map f) j = optVal (ob.map f) j := by
  cases oa with
  | none =>
    cases ob with
    | none => intro j hj; rfl
    | some s => simp at hs
  | some s1 =>
    cases ob with
    | none => simp at hs
    | some s2 =>
      intro j hj
      have hval : ∀ j2 ≤ t, s1 j2 = s2 j2 := by
        intro j2 hj2
        simpa [optVal] using he j2 hj2
      simp only [optVal, Option.map_some']
      exact congrArg some (hf s1 s2 hval j hj)

theorem optValR_map_agree (f : Series → Nat → Option ℝ) (t : Nat)
    (hf : ∀ s1 s2, (∀ j ≤ t, s1 j = s2 j) → ∀ j ≤ t, f s1 j = f s2 j)
    (oa ob : Option Series) (hs : oa.isSome = ob.isSome)
    (he : ∀ j ≤ t, optVal oa j = optVal ob j) :
    ∀ j ≤ t, optValR (oa.map f) j = optValR (ob.map f) j := by
  cases oa with
  | none =>
    cases ob with
    | none => intro j hj; rfl
    | some s => simp at hs
  | some s1 =>
    cases ob with
    | none => simp at hs
    | some s2 =>
      intro j hj
      have hval : ∀ j2 ≤ t, s1 j2 = s2 j2 := by
        intro j2 hj2
        simpa [optVal] using he j2 hj2
      simp only [optValR, Option.map_some']
      exact congrArg some (hf s1 s2 hval j hj)

theorem optVal_lagFill_agree (lag fill t : Nat) (oa ob : Option Series)
    (hs : oa.isSome = ob.isSome)
    (he : ∀ j, j + lag ≤ t → optVal oa j = optVal ob j) :
    ∀ j ≤ t, optVal (oa.map (lagFill lag fill)) j =
      optVal (ob.map (lagFill lag fill)) j := by
  cases oa with
  | none =>
    cases ob with
    | none => intro j hj; rfl
    | some s => simp at hs
  | some s1 =>
    cases ob with
    | none => simp at hs
    | some s2 =>
      intro j hj
      have hval : ∀ j2, j2 + lag ≤ t → s1 j2 = s2 j2 := by
        intro j2 hj2
        simpa [optVal] using he j2 hj2
      simp only [optVal, Option.map_some']
      exact congrArg some (lagFill_agree lag fill t s1 s2 hval j hj)

theorem optVal_curveOf_agree (t : Nat) (a1 a2 b1 b2 : Option Series)
    (hsa : a1.isSome = a2.isSome) (hsb : b1.isSome = b2.isSome)
    (hea : ∀ j ≤ t, optVal a1 j = optVal a2 j)
    (heb : ∀ j ≤ t, optVal b1 j = optVal b2 j) :
    ∀ j ≤ t, optVal (curveOf a1 b1) j = optVal (curveOf a2 b2) j := by
  cases a1 with
  | none =>
    cases a2 with
    | none => intro j hj; cases b1 <;> cases b2 <;> rfl
    | some s => simp at hsa
  | some sa1 =>
    cases a2 with
    | none => simp at hsa
    | some sa2 =>
      cases b1 with
      | none =>
        cases b2 with
        | none => intro j hj; rfl
        | some s => simp at hsb
      | some sb1 =>
        cases b2 with
        | none => simp at hsb
        | some sb2 =>
          intro j hj
          have hva : ∀ j2 ≤ t, sa1 j2 = sa2 j2 := by
            intro j2 hj2
            simpa [optVal] using hea j2 hj2
          have hvb : ∀ j2 ≤ t, sb1 j2 = sb2 j2 := by
            intro j2 hj2
            simpa [optVal] using heb j2 hj2
          simp only [curveOf, optVal, Option.map_some']
          exact congrArg some (subSeries_agree t sa1 sa2 sb1 sb2 hva hvb j hj)

theorem optVal_riskScoreOf_agree (t : Nat)
    (c1 c2 cr1 cr2 v1 v2 : Option Series)
    (hsc : c1.isSome = c2.isSome) (hscr : cr1.isSome = cr2.isSome)
    (hsv : v1.isSome = v2.isSome)
    (hec : optVal c1 t = optVal c2 t) (hecr : optVal cr1 t = optVal cr2 t)
    (hev : optVal v1 t = optVal v2 t) :
    optVal (riskScoreOf c1 cr1 v1) t = optVal (riskScoreOf c2 cr2 v2) t := by
  cases c1 with
  | none => cases c2 with
    | some s => simp at hsc
    | none =>
      cases cr1 with
      | none => cases cr2 with
        | some s => simp at hscr
        | none =>
          cases v1 with
          | none => cases v2 with
            | some s => simp at hsv
            | none => rfl
          | some sv1 => cases v2 with
            | none => simp at hsv
            | some sv2 =>
              have hv : sv1 t = sv2 t := by simpa [optVal] using hev
              simp [riskScoreOf, optVal, sumMinCount, hv]
      | some scr1 => cases cr2 with
        | none => simp at hscr
        | some scr2 =>
          have hcr : scr1 t = scr2 t := by simpa [optVal] using hecr
          cases v1 with
          | none => cases v2 with
            | some s => simp at hsv
            | none => simp [riskScoreOf, optVal, sumMinCount, hcr]
          | some sv1 => cases v2 with
            | none => simp at hsv
            | some sv2 =>
              have hv : sv1 t = sv2 t := by simpa [optVal] using hev
              simp [riskScoreOf, optVal, sumMinCount, hcr, hv]
  | some sc1 => cases c2 with
    | none => simp at hsc
    | some sc2 =>
      have hc : sc1 t = sc2 t := by simpa [optVal] using hec
      cases cr1 with
      | none => cases cr2 with
        | some s => simp at hscr
        | none =>
          cases v1 with
          | none => cases v2 with
            | some s => simp at hsv
            | none => simp [riskScoreOf, optVal, sumMinCount, hc]
          | some sv1 => cases v2 with
            | none => simp at hsv
            | some sv2 =>
              have hv : sv1 t = sv2 t := by simpa [optVal] using hev
              simp [riskScoreOf, optVal, sumMinCount, hc, hv]
      | some scr1 => cases cr2 with
        | none => simp at hscr
        | some scr2 =>
          have hcr : scr1 t = scr2 t := by simpa [optVal] using hecr
          cases v1 with
          | none => cases v2 with
            | some s => simp at hsv
            | none => simp [riskScoreOf, optVal, sumMinCount, hc, hcr]
          | some sv1 => cases v2 with
            | none => simp at hsv
            | some sv2 =>
              have hv : sv1 t = sv2 t := by simpa [optVal] using hev
              simp [riskScoreOf, optVal, sumMinCount, hc, hcr, hv]

theorem curveOf_isSome (a b : Option Series) :
    (curveOf a b).isSome = (a.isSome && b.isSome) := by
  cases a <;> cases b <;> rfl

/-- C6: for every pair of raw input tables with the same columns that agree
on all values at positions at most `t - lag`, `build_features` produces
identical feature rows at `t`; altering any raw value strictly after
`t - lag` changes no derived column at `t`. -/
theorem no_lookahead (m1 m2 : RawTable)
    (lag_days days_1m days_1y fill_days t : Nat)
    (hs10 : m1.ust_10y.isSome = m2.ust_10y.isSome)
    (hs2 : m1.ust_2y.isSome = m2.ust_2y.isSome)
    (hsb : m1.baa_10y_spread.isSome = m2.baa_10y_spread.isSome)
    (hsv : m1.vix.isSome = m2.vix.isSome)
    (he10 : ∀ j, j + lag_days ≤ t →
      optVal m1.ust_10y j = optVal m2.ust_10y j)
    (he2 : ∀ j, j + lag_days ≤ t →
      optVal m1.ust_2y j = optVal m2.ust_2y j)
    (heb : ∀ j, j + lag_days ≤ t →
      optVal m1.baa_10y_spread j = optVal m2.baa_10y_spread j)
    (hev : ∀ j, j + lag_days ≤ t →
      optVal m1.vix j = optVal m2.vix j) :
    featRow (buildFeatures m1 lag_days days_1m days_1y fill_days) t =
    featRow (buildFeatures m2 lag_days days_1m days_1y fill_days) t := by
  have b10 := optVal_lagFill_agree lag_days fill_days t _ _ hs10 he10
  have b2 := optVal_lagFill_agree lag_days fill_days t _ _ hs2 he2
  have bb := optVal_lagFill_agree lag_days fill_days t _ _ hsb heb
  have bv := optVal_lagFill_agree lag_days fill_days t _ _ hsv hev
  have ps10 : (m1.ust_10y.map (lagFill lag_days fill_days)).isSome =
      (m2.ust_10y.map (lagFill lag_days fill_days)).isSome := by
    simp [Option.isSome_map', hs10]
  have ps2 : (m1.ust_2y.map (lagFill lag_days fill_days)).isSome =
      (m2.ust_2y.map (lagFill lag_days fill_days)).isSome := by
    simp [Option.isSome_map', hs2]
  have psb : (m1.baa_10y_spread.map (lagFill lag_days fill_days)).isSome =
      (m2.baa_10y_spread.map (lagFill lag_days fill_days)).isSome := by
    simp [Option.isSome_map', hsb]
  have psv : (m1.vix.map (lagFill lag_days fill_days)).isSome =
      (m2.vix.map (lagFill lag_days fill_days)).isSome := by
    simp [Option.isSome_map', hsv]
  have hcurve := optVal_curveOf_agree t _ _ _ _ ps10 ps2 b10 b2
  have pscurve :
      (curveOf (m1.ust_10y.map (lagFill lag_days fill_days))
        (m1.ust_2y.map (lagFill lag_days fill_days))).isSome =
      (curveOf (m2.ust_10y.map (lagFill lag_days fill_days))
        (m2.ust_2y.map (lagFill lag_days fill_days))).isSome := by
    rw [curveOf_isSome, curveOf_isSome, ps10, ps2]
  have hdiff10 := optVal_map_agree (diffN days_1m) t
    (diffN_agree days_1m t) _ _ ps10 b10
  have hdiff2 := optVal_map_agree (diffN days_1m) t
    (diffN_agree days_1m t) _ _ ps2 b2
  have hdiffb := optVal_map_agree (diffN days_1m) t
    (diffN_agree days_1m t) _ _ psb bb
  have hdiffv := optVal_map_agree (diffN days_1m) t
    (diffN_agree days_1m t) _ _ psv bv
  have psdiffb :
      ((m1.baa_10y_spread.map (lagFill lag_days fill_days)).map
        (diffN days_1m)).isSome =
      ((m2.baa_10y_spread.map (lagFill lag_days fill_days)).map
        (diffN days_1m)).isSome := by
    simp [Option.isSome_map', hsb]
  have psdiffv :
      ((m1.vix.map (lagFill lag_days fill_days)).map
        (diffN days_1m)).isSome =
      ((m2.vix.map (lagFill lag_days fill_days)).map
        (diffN days_1m)).isSome := by
    simp [Option.isSome_map', hsv]
  have hzc := optValR_map_agree
    (zscoreRolling days_1y ((4 * days_1y) / 5)) t
    (zscoreRolling_agree days_1y ((4 * days_1y) / 5) t) _ _ pscurve hcurve
  have hzb := optValR_map_agree
    (zscoreRolling days_1y ((4 * days_1y) / 5)) t
    (zscoreRolling_agree days_1y ((4 * days_1y) / 5) t) _ _ psb bb
  have hzv := optValR_map_agree
    (zscoreRolling days_1y ((4 * days_1y) / 5)) t
    (zscoreRolling_agree days_1y ((4 * days_1y) / 5) t) _ _ psv bv
  have hscore := optVal_riskScoreOf_agree t _ _ _ _ _ _
    pscurve psdiffb psdiffv (hcurve t le_rfl) (hdiffb t le_rfl)
    (hdiffv t le_rfl)
  simp only [featRow, buildFeatures, Prod.mk.injEq]
  refine ⟨b10 t le_rfl, b2 t le_rfl, bb t le_rfl, bv t le_rfl,
    hcurve t le_rfl, hzc t le_rfl, hdiff10 t le_rfl, hdiff2 t le_rfl,
    bb t le_rfl, hdiffb t le_rfl, hzb t le_rfl, bv t le_rfl,
    hdiffv t le_rfl, hzv t le_rfl, hscore⟩


/-- A raw table constant at 1 everywhere. -/
def lookTbl1 : RawTable :=
  { ust_10y := some (fun _ => some 1), ust_2y := some (fun _ => some 1),
    baa_10y_spread := some (fun _ => some 1), vix := some (fun _ => some 1) }

/-- A raw table agreeing with `lookTbl1` at position 0 only. -/
def lookTbl2 : RawTable :=
  { ust_10y := some (fun j => if j = 0 then some 1 else some 2),
    ust_2y := some (fun j => if j = 0 then some 1 else some 2),
    baa_10y_spread := some (fun j => if j = 0 then some 1 else some 2),
    vix := some (fun j => if j = 0 then some 1 else some 2) }

/-- Witness for C6 with lag 1 at position 1: the tables agree only at
position 0 (= t - lag) and the feature rows at position 1 coincide. -/
theorem no_lookahead_witness :
    featRow (buildFeatures lookTbl1 1 2 3 1) 1 =
    featRow (buildFeatures lookTbl2 1 2 3 1) 1 := by
  refine no_lookahead lookTbl1 lookTbl2 1 2 3 1 1 rfl rfl rfl rfl
    ?_ ?_ ?_ ?_ <;>
    (intro j hj
     have hj0 : j = 0 := by omega
     subst hj0
     rfl)

end MacroCreditRegimes
